import Mathlib

/-!
# Verification of the AwaazBackend processing pipeline (src/server.js)

A shallow embedding of the Express server in `src/server.js`.  Pure string
processing (page splitting, trimming) is translated directly; the effectful
parts (OpenAI calls, Supabase storage and database, the filesystem) are
modelled by passing in the outcome of each external call explicitly, so every
control-flow branch of the JavaScript is represented by a branch on those
outcomes.  JavaScript numbers are idealised as exact rationals with explicit
NaN/Infinity markers where the code can produce them; JavaScript strings are
Lean strings (UTF-16 length subtleties are not modelled, none of the claims
depend on them).
-/

set_option autoImplicit false

namespace Awaaz

/-! ## JavaScript helpers

`isJsSpace` covers the ASCII part of the `\s` character class used by the
regexes in `server.js` (`/\n\s*\n\s*\n/`) and by `String.prototype.trim`;
non-ASCII Unicode whitespace is not modelled. -/

def isJsSpace (c : Char) : Bool :=
  c = ' ' || c = '\t' || c = '\n' || c = '\r' || c = '\x0b' || c = '\x0c'

/-- `String.prototype.trim`, restricted to ASCII whitespace. -/
def jsTrim (s : String) : String :=
  String.mk (((s.toList.dropWhile isJsSpace).reverse.dropWhile isJsSpace).reverse)

/-- JavaScript `x || d` for an optional string field of a parsed JSON object:
`undefined` and the empty string are falsy and give the default. -/
def jsOrString : Option String → String → String
  | some s, d => if s = "" then d else s
  | none, d => d

/-- JavaScript `x || d` for an optional numeric field: `undefined` and `0` are
falsy and give the default. -/
def jsOrInt : Option Int → Int → Int
  | some n, d => if n = 0 then d else n
  | none, d => d

/-! ## Batch evaluation: JSON mapping step (server.js lines 595-633)

`evaluateAllAnswersWithOpenAI` trims the model output, strips markdown code
fences, and runs `JSON.parse` inside a `try`.  Every possible string response
therefore lands in exactly one of three parse outcomes, which
`ParsedResponse` enumerates: the parse threw (empty input, malformed JSON,
truncated fences, ...), it produced a single non-array object, or it produced
an array of objects.  `EvalObj` is the shape of one parsed result object; a
field the provider omitted is `none`. -/

structure QAPair where
  question : String
  userAnswer : String
  deriving DecidableEq, Repr

structure EvalObj where
  questionIndex : Option Int
  referenceAnswer : Option String
  similarity : Option Int
  missingPoints : Option String
  deriving DecidableEq, Repr

inductive ParsedResponse where
  | parseFail
  | single (o : EvalObj)
  | array (os : List EvalObj)
  deriving DecidableEq, Repr

/-- The shape pushed into `results` by the mapping loop. -/
structure EvalResult where
  referenceAnswer : String
  similarity : Int
  missingPoints : String
  deriving DecidableEq, Repr

/-- The `{}` fallback of `evaluations.find(...) || evaluations[i] || {}`. -/
def emptyEvalObj : EvalObj := ⟨none, none, none, none⟩

/-- server.js lines 614-618: build one result from a picked object, applying
the `||` defaults. -/
def applyDefaults (e : EvalObj) : EvalResult :=
  { referenceAnswer := jsOrString e.referenceAnswer "No reference answer generated"
  , similarity := jsOrInt e.similarity 0
  , missingPoints := jsOrString e.missingPoints "No missing points identified" }

/-- server.js line 612:
`evaluations.find(e => e.questionIndex === i + 1) || evaluations[i] || {}`. -/
def pickEval (os : List EvalObj) (i : Nat) : EvalObj :=
  match os.find? (fun e => e.questionIndex = some ((i : Int) + 1)) with
  | some e => e
  | none =>
    match os.get? i with
    | some e => e
    | none => emptyEvalObj

/-- server.js lines 628-632: the default pushed for every pair when
`JSON.parse` threw. -/
def parseFailBatchDefault : EvalResult :=
  ⟨"Unable to parse AI response for this question", 0, "Response parsing failed"⟩

/-- server.js line 607: the list the mapping loop runs over,
`Array.isArray(parsed) ? parsed : [parsed]`; `none` when `JSON.parse`
threw. -/
def parsedEvaluations : ParsedResponse → Option (List EvalObj)
  | .parseFail => none
  | .single o => some [o]
  | .array os => some os

/-- server.js lines 604-632: `JSON.parse` outcome to the final `results`
array.  A non-array value is wrapped (`Array.isArray(parsed) ? parsed :
[parsed]`), then for `i = 0 .. qaPairs.length-1` an object is picked by
index tag, else by position, else `{}`. -/
def mapBatchResults (pairs : List QAPair) : ParsedResponse → List EvalResult
  | .parseFail => pairs.map (fun _ => parseFailBatchDefault)
  | .single o => (List.range pairs.length).map (fun i => applyDefaults (pickEval [o] i))
  | .array os => (List.range pairs.length).map (fun i => applyDefaults (pickEval os i))

/-! ## Rate-limited retry wrappers (server.js lines 635-659 and 714-738)

Each provider attempt is an external event; `outcomes k` is what the k-th
attempt of the current call sequence produced.  `rateLimited h` is an error
with `status === 429` whose `retry-after` header, when present and numeric,
is `h` seconds; `apiError` is any other thrown error.  The JavaScript
recursion carries `retryCount` with guard `retryCount < 2`; the embedding
carries `retriesLeft = 2 - retryCount` (structural) together with the attempt
index, so `evaluate...WithOpenAI` below starts at `retriesLeft = 2`,
`attempt = 0` exactly as the source starts at `retryCount = 0`.

The run records, besides the result, the backoff waits performed (in
milliseconds, mirroring `setTimeout`) and the number of provider calls made,
so that the retry policy is stated about observable data of the model. -/

/-- server.js lines 640-642 and 719-721: wait derived from the
`retry-after` header: `parseInt(h) * 1000 + 5000` when present, else 30000. -/
def waitOf : Option Nat → Nat
  | some s => s * 1000 + 5000
  | none => 30000

instance exceptDecEq {ε α : Type} [DecidableEq ε] [DecidableEq α] :
    DecidableEq (Except ε α)
  | .ok a, .ok b =>
    if h : a = b then .isTrue (by rw [h]) else .isFalse (by intro hh; cases hh; exact h rfl)
  | .ok _, .error _ => .isFalse (by intro hh; cases hh)
  | .error _, .ok _ => .isFalse (by intro hh; cases hh)
  | .error a, .error b =>
    if h : a = b then .isTrue (by rw [h]) else .isFalse (by intro hh; cases hh; exact h rfl)

inductive BatchCallOutcome where
  | ok (resp : ParsedResponse)
  | rateLimited (retryAfter : Option Nat)
  | apiError
  deriving DecidableEq, Repr

structure BatchRun where
  result : Except Unit (List EvalResult)
  waits : List Nat
  attempts : Nat
  deriving DecidableEq, Repr

/-- server.js lines 650-655: batch-level defaults returned when still
rate-limited after the retries are exhausted. -/
def rateLimitBatchDefault : EvalResult :=
  ⟨"Rate limit exceeded. Please upgrade your OpenAI plan or try again later.",
   0, "Unable to evaluate due to API rate limits."⟩

def evaluateAllAnswersAux (outcomes : Nat → BatchCallOutcome) (pairs : List QAPair) :
    Nat → Nat → BatchRun
  | retriesLeft, attempt =>
    match outcomes attempt, retriesLeft with
    | .ok resp, _ => ⟨.ok (mapBatchResults pairs resp), [], 1⟩
    | .apiError, _ => ⟨.error (), [], 1⟩
    | .rateLimited _, 0 => ⟨.ok (pairs.map (fun _ => rateLimitBatchDefault)), [], 1⟩
    | .rateLimited h, r + 1 =>
      let rest := evaluateAllAnswersAux outcomes pairs r (attempt + 1)
      ⟨rest.result, waitOf h :: rest.waits, rest.attempts + 1⟩

/-- server.js lines 550-660: `evaluateAllAnswersWithOpenAI(qaPairs)`.  A
`.error` result is the `throw error` on line 658; every other path returns a
list of evaluations. -/
def evaluateAllAnswersWithOpenAI (pairs : List QAPair) (outcomes : Nat → BatchCallOutcome) :
    BatchRun :=
  evaluateAllAnswersAux outcomes pairs 2 0

/-- The single-pair variant parses without fence stripping; the parse either
throws or yields a value whose fields are read with `||` defaults
(server.js lines 698-712). -/
inductive ParsedSingle where
  | parseFail
  | obj (o : EvalObj)
  deriving DecidableEq, Repr

inductive SingleCallOutcome where
  | ok (resp : ParsedSingle)
  | rateLimited (retryAfter : Option Nat)
  | apiError
  deriving DecidableEq, Repr

structure SingleRun where
  result : Except Unit EvalResult
  waits : List Nat
  attempts : Nat
  deriving DecidableEq, Repr

/-- server.js lines 707-711. -/
def parseFailSingleDefault : EvalResult :=
  ⟨"Unable to parse AI response", 0, "Response parsing failed"⟩

/-- server.js lines 730-734. -/
def rateLimitSingleDefault : EvalResult :=
  ⟨"Rate limit exceeded. Please upgrade your OpenAI plan or try again later.",
   0, "Unable to evaluate due to API rate limits. Consider upgrading to a paid plan."⟩

/-- server.js lines 698-712. -/
def parseSingleResponse : ParsedSingle → EvalResult
  | .parseFail => parseFailSingleDefault
  | .obj e => applyDefaults e

def evaluateAnswerAux (outcomes : Nat → SingleCallOutcome) : Nat → Nat → SingleRun
  | retriesLeft, attempt =>
    match outcomes attempt, retriesLeft with
    | .ok p, _ => ⟨.ok (parseSingleResponse p), [], 1⟩
    | .apiError, _ => ⟨.error (), [], 1⟩
    | .rateLimited _, 0 => ⟨.ok rateLimitSingleDefault, [], 1⟩
    | .rateLimited h, r + 1 =>
      let rest := evaluateAnswerAux outcomes r (attempt + 1)
      ⟨rest.result, waitOf h :: rest.waits, rest.attempts + 1⟩

/-- server.js lines 663-739: `evaluateAnswerWithOpenAI(question, userAnswer)`
for one pair; the text arguments only shape the prompt, so the embedding is
parametrised by the attempt outcomes alone. -/
def evaluateAnswerWithOpenAI (outcomes : Nat → SingleCallOutcome) : SingleRun :=
  evaluateAnswerAux outcomes 2 0

/-! ## Report generation (server.js lines 478-547) -/

/-- One element of the `results` array built by `generateReport`; field names
mirror the object keys "Question", "User Answer", "Reference Answer",
"Similarity Score", "Missing Points". -/
structure ReportItem where
  question : String
  userAnswer : String
  referenceAnswer : String
  similarity : Int
  missingPoints : String
  deriving DecidableEq, Repr

def mkReportItem (p : QAPair) (e : EvalResult) : ReportItem :=
  ⟨p.question, p.userAnswer, e.referenceAnswer, e.similarity, e.missingPoints⟩

/-- server.js lines 535-541: the result pushed when the individual
evaluation of one pair also throws. -/
def fallbackFailItem (p : QAPair) : ReportItem :=
  ⟨p.question, p.userAnswer, "Unable to generate reference answer due to rate limits",
   0, "Evaluation failed - API rate limit exceeded"⟩

/-- server.js lines 506-545: the per-pair fallback loop.  `so i` is the
outcome sequence for pair i's `evaluateAnswerWithOpenAI` call; the second
component accumulates the provider calls made. -/
def fallbackLoopAux (so : Nat → Nat → SingleCallOutcome) :
    List QAPair → Nat → List ReportItem × Nat
  | [], _ => ([], 0)
  | pair :: rest, i =>
    let r := evaluateAnswerWithOpenAI (so i)
    let item := match r.result with
      | .ok e => mkReportItem pair e
      | .error _ => fallbackFailItem pair
    let tail := fallbackLoopAux so rest (i + 1)
    (item :: tail.1, r.attempts + tail.2)

structure ReportRun where
  items : List ReportItem
  usedFallback : Bool
  singleAttempts : Nat
  deriving DecidableEq, Repr

/-- server.js lines 478-547: `generateReport(qaPairs)`.  The primary path
wraps the batch evaluations pairwise; any throw from the batch call lands in
the `catch` that runs the per-pair loop.  `usedFallback` records whether the
`catch` branch ran and `singleAttempts` counts single-pair provider calls
(0 on the primary path). -/
def generateReport (pairs : List QAPair) (batchOutcomes : Nat → BatchCallOutcome)
    (singleOutcomes : Nat → Nat → SingleCallOutcome) : ReportRun :=
  match (evaluateAllAnswersWithOpenAI pairs batchOutcomes).result with
  | .ok evals => ⟨(pairs.zip evals).map (fun pe => mkReportItem pe.1 pe.2), false, 0⟩
  | .error _ =>
    let fb := fallbackLoopAux singleOutcomes pairs 0
    ⟨fb.1, true, fb.2⟩

/-! ## Text extraction and the page split chain (server.js lines 94-114)

`extractTextFromPdf` splits the raw `pdf-parse` text on form feed `'\f'`
(`'\x0c'`); when that yields a single block it re-splits the original text on
the regex `/\n\s*\n\s*\n/` ("two or more blank lines"); blank blocks (empty
after `trim()`) are discarded.  The regex matcher below implements the exact
leftmost, greedy-with-backtracking semantics of the JavaScript engine for
this fixed pattern, and `regexSplitAux` implements `String.prototype.split`
over its successive non-overlapping matches. -/

/-- `String.prototype.split(sep)` for a single separator character:
consecutive separators yield empty blocks, as in JavaScript. -/
def splitOnChar (sep : Char) : List Char → List (List Char)
  | [] => [[]]
  | c :: rest =>
    if c = sep then [] :: splitOnChar sep rest
    else
      match splitOnChar sep rest with
      | [] => [[c]]
      | h :: t => (c :: h) :: t

/-- Match `\s*\n` greedily (longest whitespace run whose last newline is as
late as possible), returning the remainder after the match. -/
def matchSpacesNewline : List Char → Option (List Char)
  | [] => none
  | c :: rest =>
    if isJsSpace c then
      match matchSpacesNewline rest with
      | some r => some r
      | none => if c = '\n' then some rest else none
    else none

/-- Match `\s*\n\s*\n` greedily (the tail of the page-break pattern after its
leading newline). -/
def matchTwoNewlines : List Char → Option (List Char)
  | [] => none
  | c :: rest =>
    if isJsSpace c then
      match matchTwoNewlines rest with
      | some r => some r
      | none => if c = '\n' then matchSpacesNewline rest else none
    else none

/-- Match the full pattern `\n\s*\n\s*\n` at the head of the input. -/
def matchPageBreak : List Char → Option (List Char)
  | [] => none
  | c :: rest => if c = '\n' then matchTwoNewlines rest else none

/-- `text.split(/\n\s*\n\s*\n/)`: scan left to right, cutting at each match
of the page-break pattern.  The scan consumes at least one character per
step, so `fuel := length of the input` makes the first branch unreachable;
fuel is only a structural-termination device. -/
def regexSplitAux : Nat → List Char → List Char → List String
  | 0, cs, acc => [String.mk (acc.reverse ++ cs)]
  | _ + 1, [], acc => [String.mk acc.reverse]
  | fuel + 1, c :: rest, acc =>
    match matchPageBreak (c :: rest) with
    | some rem => String.mk acc.reverse :: regexSplitAux fuel rem []
    | none => regexSplitAux fuel rest (c :: acc)

def regexSplit (s : String) : List String :=
  regexSplitAux s.toList.length s.toList []

/-- Does any position of the text start a `\n\s*\n\s*\n` match? -/
def hasPageBreakMatch : List Char → Bool
  | [] => false
  | c :: rest => (matchPageBreak (c :: rest)).isSome || hasPageBreakMatch rest

/-- `text.includes('\f')` in essence: does the raw text contain a form
feed? -/
def hasFormFeed (s : String) : Bool := s.toList.any (fun c => c = '\x0c')

/-- Spec-level predicate: the text contains a blank-line page separator
(an occurrence of the `/\n\s*\n\s*\n/` pattern). -/
def hasBlankSeparator (s : String) : Bool := hasPageBreakMatch s.toList

/-- Outcome of `fs.readFileSync` + `pdfParse` on the uploaded file:
`err` when either threw (corrupt or unreadable document), `ok text` with the
raw extracted text otherwise. -/
inductive ExtractOutcome where
  | err
  | ok (text : String)
  deriving DecidableEq, Repr

/-- server.js lines 94-114: `extractTextFromPdf`.  The `catch` returns `[]`;
otherwise split on form feed, fall back to the blank-line regex if that
produced a single block, and keep only blocks that are non-empty after
`trim()`. -/
def extractTextFromPdf : ExtractOutcome → List String
  | .err => []
  | .ok text =>
    let pages := (splitOnChar '\x0c' text.toList).map String.mk
    if pages.length = 1 then
      (regexSplit text).filter (fun p => 0 < (jsTrim p).length)
    else
      pages.filter (fun p => 0 < (jsTrim p).length)

/-! ## Per-slide content generation (server.js lines 218-284)

`generateQuestionsWithOpenAI` / `generateSpeechContentWithOpenAI` catch every
provider error and return `null`, so for the orchestration their behaviour is
a function `slideNumber → Option String` (`some` carries the trimmed model
output).  The integer-keyed JavaScript objects `slideData`, `questionsData`,
`speechContent` are modelled as association lists in insertion order.  The
embedding additionally records which slides triggered a question call and a
speech call, so skip policies can be stated observably. -/

structure ProcessResult where
  slideData : List (Nat × String)
  questionsData : List (Nat × List String)
  speechContent : List (Nat × String)
  qCalls : List Nat
  sCalls : List Nat
  deriving DecidableEq, Repr

def processTextContentAux (qGen sGen : Nat → Option String) :
    List String → Nat → ProcessResult
  | [], _ => ⟨[], [], [], [], []⟩
  | page :: rest, i =>
    let slideNumber := i + 1
    let extractedText := jsTrim page
    let tail := processTextContentAux qGen sGen rest (i + 1)
    if extractedText.length > 10 then
      { slideData := (slideNumber, extractedText) :: tail.slideData
      , questionsData :=
          match qGen slideNumber with
          | some q => (slideNumber, [q]) :: tail.questionsData
          | none => tail.questionsData
      , speechContent :=
          match sGen slideNumber with
          | some s => (slideNumber, s) :: tail.speechContent
          | none => tail.speechContent
      , qCalls := slideNumber :: tail.qCalls
      , sCalls := slideNumber :: tail.sCalls }
    else tail

/-- server.js lines 218-284: `processTextContent(pdfPages, uniqueCode)`.  The
JavaScript guard `extractedText && extractedText.length > 10` is equivalent
to `length > 10` (the empty string has length 0).  Slides at or below the
threshold make no provider call and write no map entry. -/
def processTextContent (pdfPages : List String) (qGen sGen : Nat → Option String) :
    ProcessResult :=
  processTextContentAux qGen sGen pdfPages 0

/-! ## Image upload (server.js lines 117-152) -/

/-- server.js lines 117-152: `uploadImagesToSupabase`.  `n` images were
produced by the conversion step; `uploadOk j` is whether slide `j`'s read +
storage upload succeeded (both failure modes — a thrown read error and a
returned upload error — `continue` to the next slide).  Returns the slide
numbers recorded in `uploadedSlides`. -/
def uploadImagesToSupabase (n : Nat) (uploadOk : Nat → Bool) : List Nat :=
  (List.range n).filterMap (fun i => if uploadOk (i + 1) then some (i + 1) else none)

/-! ## The upload-presentation handler (server.js lines 287-389) -/

/-- Everything external the handler touches, as explicit outcomes:
the multer file (`hasFile`), the `pdfParse` outcome, the two generator
oracles, the `convertPdfToImages` outcome (`.ok n` = n images produced,
`.error` = the Python conversion or directory read rejected), per-slide
upload success, and the database insert error. -/
structure UploadEnv where
  hasFile : Bool
  extract : ExtractOutcome
  qGen : Nat → Option String
  sGen : Nat → Option String
  conversion : Except Unit Nat
  uploadOk : Nat → Bool
  dbError : Option String

inductive UploadResponse where
  | badRequest
  | serverError (details : String)
  | success (slideCount : Nat) (hasImages : Bool) (uploadedImages : Nat)
  deriving DecidableEq, Repr

/-- The row inserted into the `presentations` table (the fields the claims
talk about). -/
structure StoredPresentation where
  slide_count : Nat
  slide_texts : List (Nat × String)
  questions : List (Nat × List String)
  speech_content : List (Nat × String)
  has_images : Bool
  deriving DecidableEq, Repr

structure UploadRun where
  response : UploadResponse
  stored : Option StoredPresentation
  usedDirectExtraction : Bool
  deriving DecidableEq, Repr

/-- server.js lines 287-389: the POST `/api/upload-presentation` handler.
STEP 1 always extracts text directly; STEP 2 generates content from it;
STEP 3 tries conversion + upload inside its own `try` whose `catch` sets
`hasImages = false`; then `slideCount = pdfPages.length` and the row is
inserted — a database error throws into the outer `catch` (500), otherwise
the success JSON is returned.  `usedDirectExtraction` records that the
STEP 1 call ran. -/
def uploadPresentationHandler (env : UploadEnv) : UploadRun :=
  if env.hasFile then
    let pdfPages := extractTextFromPdf env.extract
    let proc := processTextContent pdfPages env.qGen env.sGen
    let uploaded :=
      match env.conversion with
      | .ok n => uploadImagesToSupabase n env.uploadOk
      | .error _ => []
    let hasImages := !uploaded.isEmpty
    let slideCount := pdfPages.length
    match env.dbError with
    | some msg =>
      ⟨.serverError ("Database error: " ++ msg), none, true⟩
    | none =>
      ⟨.success slideCount hasImages uploaded.length,
       some ⟨slideCount, proc.slideData, proc.questionsData, proc.speechContent, hasImages⟩,
       true⟩
  else ⟨.badRequest, none, false⟩

/-- Is the HTTP response an error status (400 or 500)? -/
def isErrorResponse : UploadResponse → Bool
  | .badRequest => true
  | .serverError _ => true
  | .success _ _ _ => false

/-- The `hasImages` flag of a success response. -/
def responseHasImages : UploadResponse → Option Bool
  | .success _ b _ => some b
  | _ => none

/-! ## Report summary statistics (server.js lines 780-797)

JavaScript numbers are idealised as exact rationals extended with the NaN
and infinity markers the involved operations can produce; binary floating
point rounding is not modelled (all quantities in the claims are small
integers and one division). -/

inductive JSNum where
  | nan
  | posInf
  | negInf
  | val (q : ℚ)
  deriving DecidableEq, Repr

/-- JavaScript `/`: `0/0` is NaN, `x/0` is a signed infinity. -/
def jsDiv : JSNum → JSNum → JSNum
  | .val a, .val b =>
    if b = 0 then
      if a = 0 then .nan else if 0 < a then .posInf else .negInf
    else .val (a / b)
  | _, _ => .nan

/-- JavaScript `*` on the shapes reachable here. -/
def jsMul : JSNum → JSNum → JSNum
  | .nan, _ => .nan
  | _, .nan => .nan
  | .val a, .val b => .val (a * b)
  | .posInf, .val b => if 0 < b then .posInf else if b < 0 then .negInf else .nan
  | .val a, .posInf => if 0 < a then .posInf else if a < 0 then .negInf else .nan
  | .negInf, .val b => if 0 < b then .negInf else if b < 0 then .posInf else .nan
  | .val a, .negInf => if 0 < a then .negInf else if a < 0 then .posInf else .nan
  | .posInf, .posInf => .posInf
  | .posInf, .negInf => .negInf
  | .negInf, .posInf => .negInf
  | .negInf, .negInf => .posInf

/-- JavaScript `Math.round`: half-up, `⌊x + 1/2⌋`; NaN and infinities
pass through. -/
def jsRound : JSNum → JSNum
  | .val q => .val ((⌊q + 1 / 2⌋ : ℤ) : ℚ)
  | x => x

/-- server.js line 781: `reportData.length`. -/
def totalQuestions (items : List ReportItem) : Nat := items.length

/-- server.js line 783:
`reportData.filter(item => item["Similarity Score"] >= 70).length`. -/
def passedQuestions (items : List ReportItem) : Nat :=
  (items.filter (fun it => 70 ≤ it.similarity)).length

/-- server.js line 794:
`Math.round((passedQuestions / totalQuestions) * 100)`. -/
def passRate (items : List ReportItem) : JSNum :=
  jsRound (jsMul (jsDiv (.val (passedQuestions items)) (.val (totalQuestions items)))
    (.val 100))

/-- The spec formula `round(passedQuestions/totalQuestions*100)` read as
exact arithmetic with half-up rounding. -/
def passRateSpec (items : List ReportItem) : ℤ :=
  ⌊((passedQuestions items : ℚ) / (totalQuestions items : ℚ)) * 100 + 1 / 2⌋

/-- All page numbers mentioned anywhere in a `ProcessResult`: call records
and map keys.  Used to state that only pages above the length gate appear. -/
def allKeys (r : ProcessResult) : List Nat :=
  r.qCalls ++ r.sCalls ++ r.slideData.map Prod.fst ++ r.questionsData.map Prod.fst
    ++ r.speechContent.map Prod.fst

/-! ## Concrete runs used as counterexample inputs -/

/-- A run where a file was uploaded, `pdfParse` threw (corrupt or empty
document), image conversion also failed, and the database insert
succeeded. -/
def corruptDocEnv : UploadEnv :=
  ⟨true, .err, fun _ => none, fun _ => none, .error (), fun _ => false, none⟩

/-- A run where extraction succeeds with one page of text, one image is
rendered and uploaded successfully, and the insert succeeds. -/
def renderedPageEnv : UploadEnv :=
  ⟨true, .ok "this is a long slide text", fun _ => none, fun _ => none, .ok 1,
   fun _ => true, none⟩

/-- A run where conversion produced two images but only the first slide's
upload succeeded. -/
def someUploadsEnv : UploadEnv :=
  ⟨true, .err, fun _ => none, fun _ => none, .ok 2, fun j => j == 1, none⟩

/-! ## Helper lemmas -/

theorem mapBatchResults_length (pairs : List QAPair) (r : ParsedResponse) :
    (mapBatchResults pairs r).length = pairs.length := by
  cases r <;> simp [mapBatchResults]

theorem get?_range_map {α : Type} (f : Nat → α) (n i : Nat) (hi : i < n) :
    ((List.range n).map f).get? i = some (f i) := by
  simp [List.get?_eq_getElem?, List.getElem?_map, List.getElem?_range, hi]

theorem evaluateAllAnswersAux_ok_length (bo : Nat → BatchCallOutcome) (pairs : List QAPair) :
    ∀ rl a l, (evaluateAllAnswersAux bo pairs rl a).result = Except.ok l →
      l.length = pairs.length := by
  intro rl
  induction rl with
  | zero =>
    intro a l h
    cases hba : bo a with
    | ok resp =>
      simp [evaluateAllAnswersAux, hba] at h
      rw [← h]
      exact mapBatchResults_length _ _
    | rateLimited ra =>
      simp [evaluateAllAnswersAux, hba] at h
      rw [← h]
      simp
    | apiError => simp [evaluateAllAnswersAux, hba] at h
  | succ r ih =>
    intro a l h
    cases hba : bo a with
    | ok resp =>
      simp [evaluateAllAnswersAux, hba] at h
      rw [← h]
      exact mapBatchResults_length _ _
    | rateLimited ra =>
      simp [evaluateAllAnswersAux, hba] at h
      exact ih (a + 1) l h
    | apiError => simp [evaluateAllAnswersAux, hba] at h

theorem evaluateAnswerAux_attempts_le (so : Nat → SingleCallOutcome) :
    ∀ rl a, (evaluateAnswerAux so rl a).attempts ≤ rl + 1 := by
  intro rl
  induction rl with
  | zero =>
    intro a
    cases hba : so a <;> simp [evaluateAnswerAux, hba]
  | succ r ih =>
    intro a
    cases hba : so a <;> simp [evaluateAnswerAux, hba]
    exact ih (a + 1)

/-! ## C1: batch evaluation 1:1 alignment -/

/-- When the parse produced a value, the mapping loop runs over the wrapped
evaluations list: position i picks by index tag, then by slot, then the
empty object. -/
theorem mapBatchResults_eq_of_parsedEvaluations (pairs : List QAPair)
    (r : ParsedResponse) (os : List EvalObj) (h : parsedEvaluations r = some os) :
    mapBatchResults pairs r =
      (List.range pairs.length).map (fun i => applyDefaults (pickEval os i)) := by
  cases r with
  | parseFail => simp [parsedEvaluations] at h
  | single o =>
    simp only [parsedEvaluations, Option.some.injEq] at h
    rw [← h]
    rfl
  | array os2 =>
    simp only [parsedEvaluations, Option.some.injEq] at h
    rw [← h]
    rfl

/-- C1.  For every list of QA pairs and every provider response shape
(parse failure — which covers empty, malformed, and badly fenced JSON — a
single non-array object, or an array with missing or mismatched
`questionIndex` tags), batch evaluation returns exactly `qaPairs.length`
evaluations.  For every shape that parses (a single object is wrapped into a
one-element list), position i of the output is built from the object tagged
`questionIndex = i+1` when one exists; when the indexed match is absent it
falls back to the element at slot i; and when that is also absent it is the
synthesized default with `similarity = 0` and placeholder text.  On parse
failure every position is the parse-failure default. -/
theorem c1_batch_alignment (pairs : List QAPair) (r : ParsedResponse) :
    (mapBatchResults pairs r).length = pairs.length
    ∧ (∀ bo l, (evaluateAllAnswersWithOpenAI pairs bo).result = Except.ok l →
        l.length = pairs.length)
    ∧ (r = ParsedResponse.parseFail → ∀ i, i < pairs.length →
        (mapBatchResults pairs r).get? i = some parseFailBatchDefault)
    ∧ (∀ os, parsedEvaluations r = some os → ∀ i, i < pairs.length →
        (∀ e, os.find? (fun e => e.questionIndex = some ((i : Int) + 1)) = some e →
          (mapBatchResults pairs r).get? i = some (applyDefaults e))
        ∧ (∀ e, os.find? (fun e => e.questionIndex = some ((i : Int) + 1)) = none →
            os.get? i = some e →
            (mapBatchResults pairs r).get? i = some (applyDefaults e))
        ∧ (os.find? (fun e => e.questionIndex = some ((i : Int) + 1)) = none →
            os.get? i = none →
            (mapBatchResults pairs r).get? i =
              some ⟨"No reference answer generated", 0, "No missing points identified"⟩)) := by
  refine ⟨mapBatchResults_length pairs r, ?_, ?_, ?_⟩
  · intro bo l h
    exact evaluateAllAnswersAux_ok_length bo pairs 2 0 l h
  · intro hr i hi
    subst hr
    simp [mapBatchResults, List.get?_eq_getElem?, List.getElem?_replicate, hi]
  · intro os hos i hi
    rw [mapBatchResults_eq_of_parsedEvaluations pairs r os hos]
    refine ⟨?_, ?_, ?_⟩
    · intro e hfind
      rw [get?_range_map _ _ i hi, pickEval, hfind]
    · intro e hfind hslot
      rw [get?_range_map _ _ i hi, pickEval, hfind, hslot]
    · intro hfind hslot
      rw [get?_range_map _ _ i hi, pickEval, hfind, hslot]
      rfl

/-- Witness for C1 at concrete inputs: an array response with no matching
index tag and no positional slot yields the synthesized default, and a
single non-array object without an index tag is aligned positionally. -/
theorem c1_batch_alignment_witness :
    (mapBatchResults [⟨"What is X", "Y"⟩] (ParsedResponse.array [])).length = 1
    ∧ (mapBatchResults [⟨"What is X", "Y"⟩] (ParsedResponse.array [])).get? 0 =
        some ⟨"No reference answer generated", 0, "No missing points identified"⟩
    ∧ (mapBatchResults [⟨"What is X", "Y"⟩]
        (ParsedResponse.single ⟨none, some "R", some 42, some "M"⟩)).get? 0 =
        some ⟨"R", 42, "M"⟩ := by
  have h1 := c1_batch_alignment [⟨"What is X", "Y"⟩] (ParsedResponse.array [])
  have h2 := c1_batch_alignment [⟨"What is X", "Y"⟩]
    (ParsedResponse.single ⟨none, some "R", some 42, some "M"⟩)
  refine ⟨h1.1, ?_, ?_⟩
  · exact (h1.2.2.2 [] rfl 0 (by decide)).2.2 (by decide) rfl
  · have hpos := (h2.2.2.2 [⟨none, some "R", some 42, some "M"⟩] rfl 0 (by decide)).2.1
      ⟨none, some "R", some 42, some "M"⟩ (by decide) rfl
    exact hpos.trans (by decide)

/-! ## C2: report summary statistics -/

/-- The empty-set NaN computation, shared between the counterexample and the
amended theorem. -/
theorem passRate_nil_nan : passRate [] = JSNum.nan := by
  simp [passRate, passedQuestions, totalQuestions, jsDiv, jsMul, jsRound]

/-- C2 counterexample.  For the empty evaluation set the code computes
`Math.round((0/0) * 100)`, which is NaN, not 0: the claim that `passRate`
is "defined as 0 (not NaN)" on the empty set is false. -/
theorem c2_counterexample :
    passRate [] = JSNum.nan ∧ passRate [] ≠ JSNum.val 0 := by
  exact ⟨passRate_nil_nan, by rw [passRate_nil_nan]; intro hc; cases hc⟩

/-- C2 as amended.  `passedQuestions` is the count of evaluations with
`similarity ≥ 70` (0 on the empty set), and for every nonempty evaluation
set `passRate` equals `round(passedQuestions/totalQuestions*100)`; on the
empty set `passRate` is NaN, not 0. -/
theorem c2_summary (items : List ReportItem) :
    passedQuestions items = items.countP (fun it => 70 ≤ it.similarity)
    ∧ (items = [] → passedQuestions items = 0 ∧ passRate items = JSNum.nan)
    ∧ (items ≠ [] → passRate items = JSNum.val ((passRateSpec items : ℤ) : ℚ)) := by
  refine ⟨?_, ?_, ?_⟩
  · rw [passedQuestions, List.countP_eq_length_filter]
  · intro h
    subst h
    exact ⟨rfl, passRate_nil_nan⟩
  · intro h
    have ht : ((totalQuestions items : ℕ) : ℚ) ≠ 0 := by
      have : totalQuestions items ≠ 0 := by
        simpa [totalQuestions, List.length_eq_zero] using h
      exact_mod_cast this
    rw [passRate, passRateSpec, jsDiv, if_neg ht, jsMul, jsRound]

/-- Witness for C2 at a concrete input: two evaluations, one passing. -/
theorem c2_summary_witness :
    passedQuestions [⟨"q", "a", "r", 80, "m"⟩, ⟨"q", "a", "r", 50, "m"⟩] = 1
    ∧ passRate [⟨"q", "a", "r", 80, "m"⟩, ⟨"q", "a", "r", 50, "m"⟩] = JSNum.val 50 := by
  have h := (c2_summary [⟨"q", "a", "r", 80, "m"⟩, ⟨"q", "a", "r", 50, "m"⟩]).2.2 (by decide)
  refine ⟨by decide, ?_⟩
  rw [h]
  have hs : passRateSpec [⟨"q", "a", "r", 80, "m"⟩, ⟨"q", "a", "r", 50, "m"⟩] = 50 := by
    have hp : passedQuestions [⟨"q", "a", "r", 80, "m"⟩, ⟨"q", "a", "r", 50, "m"⟩] = 1 := by
      decide
    have ht : totalQuestions [⟨"q", "a", "r", 80, "m"⟩, ⟨"q", "a", "r", 50, "m"⟩] = 2 := by
      decide
    rw [passRateSpec, hp, ht]
    norm_num [Int.floor_eq_iff]
  rw [hs]
  norm_num

/-! ## C3: which failures surface as errors -/

/-- C3 counterexample.  With a corrupt document (`pdfParse` threw) and a
successful insert the handler answers `success` with `slideCount = 0` — an
extraction failure does not return an error to the caller, contradicting
the claim that extraction failure yields an `ExtractionError`. -/
theorem c3_counterexample :
    corruptDocEnv.extract = ExtractOutcome.err
    ∧ (uploadPresentationHandler corruptDocEnv).response = UploadResponse.success 0 false 0
    ∧ isErrorResponse (uploadPresentationHandler corruptDocEnv).response = false
    ∧ (uploadPresentationHandler corruptDocEnv).stored = some ⟨0, [], [], [], false⟩ := by
  decide

/-- C3 as amended.  The handler returns an error exactly when no file was
uploaded (400) or the database insert fails (500); extraction failure is
absorbed into a degraded success (`slideCount 0`, empty maps), as is every
render, generation, or storage failure. -/
theorem c3_error_iff (env : UploadEnv) :
    isErrorResponse (uploadPresentationHandler env).response =
      (!env.hasFile || env.dbError.isSome) := by
  by_cases hf : env.hasFile <;> cases hdb : env.dbError <;>
    simp [uploadPresentationHandler, hf, hdb, isErrorResponse]

/-! ## C4: direct text extraction is unconditional -/

/-- C4 counterexample.  In a run where one page was rendered and uploaded
(`hasImages = true`, `uploadedImages = 1`) the stored page text still comes
from direct text extraction, which ran as STEP 1 — contradicting the claim
that the direct-extraction chain runs only when zero pages rendered. -/
theorem c4_counterexample :
    (uploadPresentationHandler renderedPageEnv).response = UploadResponse.success 1 true 1
    ∧ (uploadPresentationHandler renderedPageEnv).usedDirectExtraction = true
    ∧ ((uploadPresentationHandler renderedPageEnv).stored.map (fun st => st.slide_texts)) =
        some [(1, "this is a long slide text")] := by
  decide

/-- C4 as amended.  Direct text extraction with its two-level split chain
always runs (STEP 1 of the handler), regardless of how many pages the image
conversion later produces, and the stored slide texts, questions and speech
content are independent of the conversion and upload outcomes. -/
theorem c4_direct_extraction_always (env : UploadEnv)
    (conv1 conv2 : Except Unit Nat) (u1 u2 : Nat → Bool) :
    (env.hasFile = true → (uploadPresentationHandler env).usedDirectExtraction = true)
    ∧ ((uploadPresentationHandler { env with conversion := conv1, uploadOk := u1 }).stored.map
          (fun st => st.slide_texts) =
        (uploadPresentationHandler { env with conversion := conv2, uploadOk := u2 }).stored.map
          (fun st => st.slide_texts))
    ∧ ((uploadPresentationHandler { env with conversion := conv1, uploadOk := u1 }).stored.map
          (fun st => st.questions) =
        (uploadPresentationHandler { env with conversion := conv2, uploadOk := u2 }).stored.map
          (fun st => st.questions))
    ∧ ((uploadPresentationHandler { env with conversion := conv1, uploadOk := u1 }).stored.map
          (fun st => st.speech_content) =
        (uploadPresentationHandler { env with conversion := conv2, uploadOk := u2 }).stored.map
          (fun st => st.speech_content)) := by
  refine ⟨?_, ?_, ?_, ?_⟩
  · intro hf
    cases hdb : env.dbError <;> simp [uploadPresentationHandler, hf, hdb]
  all_goals
    by_cases hf : env.hasFile <;> cases hdb : env.dbError <;>
      simp [uploadPresentationHandler, hf, hdb]

/-- Witness for C4's amended theorem at a concrete input. -/
theorem c4_direct_extraction_always_witness :
    (uploadPresentationHandler renderedPageEnv).usedDirectExtraction = true
    ∧ ((uploadPresentationHandler
          { renderedPageEnv with conversion := Except.error (), uploadOk := fun _ => false }).stored.map
        (fun st => st.slide_texts) =
      (uploadPresentationHandler
          { renderedPageEnv with conversion := Except.ok 5, uploadOk := fun _ => true }).stored.map
        (fun st => st.slide_texts)) := by
  have h := c4_direct_extraction_always renderedPageEnv (Except.error ()) (Except.ok 5)
    (fun _ => false) (fun _ => true)
  exact ⟨h.1 rfl, h.2.1⟩

/-! ## C7: slide count and the split chain -/

theorem splitOnChar_eq_single (sep : Char) :
    ∀ cs, (∀ c ∈ cs, ¬c = sep) → splitOnChar sep cs = [cs] := by
  intro cs
  induction cs with
  | nil => intro _; rfl
  | cons c rest ih =>
    intro h
    have hc : ¬c = sep := h c (by simp)
    have hr := ih (fun x hx => h x (by simp [hx]))
    simp [splitOnChar, hc, hr]

theorem regexSplitAux_no_match :
    ∀ fuel cs acc, hasPageBreakMatch cs = false → cs.length ≤ fuel →
      regexSplitAux fuel cs acc = [String.mk (acc.reverse ++ cs)] := by
  intro fuel
  induction fuel with
  | zero => intro cs acc _ _; rfl
  | succ n ih =>
    intro cs acc h hle
    cases cs with
    | nil => simp [regexSplitAux]
    | cons c rest =>
      rw [hasPageBreakMatch] at h
      cases hmk : matchPageBreak (c :: rest) with
      | some r => rw [hmk] at h; simp at h
      | none =>
        rw [hmk] at h
        simp at h
        have hstep : regexSplitAux (n + 1) (c :: rest) acc = regexSplitAux n rest (c :: acc) := by
          simp [regexSplitAux, hmk]
        rw [hstep, ih rest (c :: acc) h (by simp only [List.length_cons] at hle; omega)]
        simp

/-- C7 counterexample.  The empty document text contains neither a form-feed
marker nor a blank-line separator, yet `slideCount` is 0, not 1: the single
all-blank block is discarded by the non-blank filter. -/
theorem c7_counterexample :
    hasFormFeed "" = false ∧ hasBlankSeparator "" = false
    ∧ extractTextFromPdf (ExtractOutcome.ok "") = []
    ∧ ¬(extractTextFromPdf (ExtractOutcome.ok "")).length = 1 := by
  decide

/-- C7 as amended.  Every page block emitted by the split chain is non-blank
(so `slideCount`, which the handler takes as the length of this list, counts
exactly the non-blank blocks), and for every document whose text is
*non-blank* and contains neither a form-feed marker nor a blank-line
separator the chain yields exactly one block, so `slideCount = 1`. -/
theorem c7_slide_count (text : String)
    (hff : hasFormFeed text = false) (hbs : hasBlankSeparator text = false)
    (hnb : 0 < (jsTrim text).length) :
    extractTextFromPdf (ExtractOutcome.ok text) = [text]
    ∧ (extractTextFromPdf (ExtractOutcome.ok text)).length = 1
    ∧ (∀ o p, p ∈ extractTextFromPdf o → 0 < (jsTrim p).length)
    ∧ (∀ env : UploadEnv, env.hasFile = true → env.dbError = none →
        ∃ hi ui, (uploadPresentationHandler env).response =
          UploadResponse.success (extractTextFromPdf env.extract).length hi ui) := by
  have hchars : ∀ c ∈ text.toList, ¬c = '\x0c' := by
    intro c hc hcc
    rw [hasFormFeed, List.any_eq_false] at hff
    exact absurd (by simpa using hcc) (by simpa using hff c hc)
  have hsplit := splitOnChar_eq_single '\x0c' text.toList hchars
  have hmk : String.mk text.toList = text := rfl
  have hrs : regexSplit text = [text] := by
    rw [regexSplit, regexSplitAux_no_match text.toList.length text.toList [] hbs (le_refl _)]
    simp
  have hmain : extractTextFromPdf (ExtractOutcome.ok text) = [text] := by
    rw [extractTextFromPdf]
    simp only [hsplit, List.map_cons, List.map_nil, hmk, List.length_singleton, if_pos rfl]
    rw [hrs]
    simp [hnb]
  refine ⟨hmain, by rw [hmain]; rfl, ?_, ?_⟩
  · intro o p hp
    cases o with
    | err => simp [extractTextFromPdf] at hp
    | ok t =>
      rw [extractTextFromPdf] at hp
      by_cases hl : ((splitOnChar '\x0c' t.toList).map String.mk).length = 1 <;>
        simp only [hl, if_pos, if_neg, if_true, if_false] at hp <;>
        simpa using (List.mem_filter.mp hp).2
  · intro env hf hdb
    simp only [uploadPresentationHandler, hf, hdb, if_true]
    exact ⟨_, _, rfl⟩

/-- Witness for C7's amended theorem at a concrete input. -/
theorem c7_slide_count_witness :
    extractTextFromPdf (ExtractOutcome.ok "hello world") = ["hello world"]
    ∧ (extractTextFromPdf (ExtractOutcome.ok "hello world")).length = 1 := by
  have h := c7_slide_count "hello world" (by decide) (by decide) (by decide)
  exact ⟨h.1, h.2.1⟩

/-! ## C8: hasImages reflects actual upload success -/

theorem mem_uploadImagesToSupabase (n : Nat) (ok : Nat → Bool) (j : Nat) :
    j ∈ uploadImagesToSupabase n ok ↔ ∃ i, i < n ∧ j = i + 1 ∧ ok j = true := by
  rw [uploadImagesToSupabase]
  simp only [List.mem_filterMap, List.mem_range]
  constructor
  · rintro ⟨i, hi, hf⟩
    by_cases h : ok (i + 1) = true
    · rw [if_pos h] at hf
      cases hf
      exact ⟨i, hi, rfl, h⟩
    · rw [if_neg h] at hf
      cases hf
  · rintro ⟨i, hi, rfl, h⟩
    exact ⟨i, hi, by rw [if_pos h]⟩

theorem uploadImagesToSupabase_ne_nil (n : Nat) (ok : Nat → Bool) :
    uploadImagesToSupabase n ok ≠ [] ↔ ∃ i, i < n ∧ ok (i + 1) = true := by
  constructor
  · intro h
    obtain ⟨j, hj⟩ := List.exists_mem_of_ne_nil _ h
    obtain ⟨i, hi, rfl, hok⟩ := (mem_uploadImagesToSupabase n ok j).mp hj
    exact ⟨i, hi, hok⟩
  · rintro ⟨i, hi, hok⟩
    exact List.ne_nil_of_mem ((mem_uploadImagesToSupabase n ok (i + 1)).mpr ⟨i, hi, rfl, hok⟩)

theorem bang_isEmpty_iff {α : Type} (l : List α) : ((!l.isEmpty) = true) ↔ l ≠ [] := by
  cases l <;> simp

/-- C8.  In a run that reaches the success response, `hasImages` (both in the
stored row and in the response) is true iff at least one page's image upload
succeeded; when conversion fails it is false; and slide `j` is recorded as
uploaded iff its own upload succeeded — a failed upload for one page does not
affect the others. -/
theorem c8_hasImages (env : UploadEnv) (n : Nat)
    (hf : env.hasFile = true) (hdb : env.dbError = none) :
    (env.conversion = Except.ok n →
      ∃ st, (uploadPresentationHandler env).stored = some st
        ∧ (st.has_images = true ↔ ∃ i, i < n ∧ env.uploadOk (i + 1) = true)
        ∧ responseHasImages (uploadPresentationHandler env).response = some st.has_images)
    ∧ (env.conversion = Except.error () →
      ∃ st, (uploadPresentationHandler env).stored = some st ∧ st.has_images = false
        ∧ responseHasImages (uploadPresentationHandler env).response = some false)
    ∧ (∀ j, j ∈ uploadImagesToSupabase n env.uploadOk ↔
        ∃ i, i < n ∧ j = i + 1 ∧ env.uploadOk j = true) := by
  refine ⟨?_, ?_, mem_uploadImagesToSupabase n env.uploadOk⟩
  · intro hc
    simp only [uploadPresentationHandler, hf, hdb, hc, if_true]
    refine ⟨_, rfl, ?_, rfl⟩
    rw [bang_isEmpty_iff]
    exact uploadImagesToSupabase_ne_nil n env.uploadOk
  · intro hc
    simp only [uploadPresentationHandler, hf, hdb, hc, if_true]
    exact ⟨_, rfl, rfl, rfl⟩

/-- Witness for C8 at a concrete input: two images, only the first upload
succeeded, so `hasImages` is stored as true. -/
theorem c8_hasImages_witness :
    ((uploadPresentationHandler someUploadsEnv).stored.map (fun st => st.has_images)) =
      some true := by
  obtain ⟨st, h1, h2, _⟩ := (c8_hasImages someUploadsEnv 2 rfl rfl).1 rfl
  have hb : st.has_images = true := h2.mpr ⟨0, by decide, rfl⟩
  rw [h1, Option.map_some', hb]

/-! ## C9 and C10: the minimum-text-length gate and map invariants -/

theorem mem_allKeys_processTextContentAux (qGen sGen : Nat → Option String) :
    ∀ pages i0 k, k ∈ allKeys (processTextContentAux qGen sGen pages i0) →
      ∃ j p, pages.get? j = some p ∧ k = i0 + j + 1 ∧ 10 < (jsTrim p).length := by
  intro pages
  induction pages with
  | nil => intro i0 k h; simp [processTextContentAux, allKeys] at h
  | cons page rest ih =>
    intro i0 k h
    have step : k = i0 + 1 ∧ 10 < (jsTrim page).length
        ∨ k ∈ allKeys (processTextContentAux qGen sGen rest (i0 + 1)) := by
      by_cases hlong : 10 < (jsTrim page).length
      · cases hq : qGen (i0 + 1) <;> cases hs : sGen (i0 + 1) <;>
          simp only [processTextContentAux, if_pos hlong, hq, hs, allKeys, List.mem_append,
            List.mem_cons, List.map_cons] at h ⊢ <;>
          tauto
      · simp only [processTextContentAux, if_neg hlong] at h
        exact Or.inr h
    rcases step with ⟨hk, hlong⟩ | hm
    · exact ⟨0, page, rfl, by omega, hlong⟩
    · obtain ⟨j, p, hget, hk, hlong⟩ := ih (i0 + 1) k hm
      exact ⟨j + 1, p, by simpa using hget, by omega, hlong⟩

/-- C9.  A page whose trimmed text has length at most 10 (including the
empty page) triggers no question call and no speech call, and gets no entry
in the slide-text, questions, or speech maps. -/
theorem c9_short_pages_skipped (pages : List String) (qGen sGen : Nat → Option String)
    (i : Nat) (p : String) (hp : pages.get? i = some p)
    (hshort : (jsTrim p).length ≤ 10) :
    (i + 1) ∉ (processTextContent pages qGen sGen).qCalls
    ∧ (i + 1) ∉ (processTextContent pages qGen sGen).sCalls
    ∧ (∀ v, (i + 1, v) ∉ (processTextContent pages qGen sGen).slideData)
    ∧ (∀ v, (i + 1, v) ∉ (processTextContent pages qGen sGen).questionsData)
    ∧ (∀ v, (i + 1, v) ∉ (processTextContent pages qGen sGen).speechContent) := by
  have key : (i + 1) ∉ allKeys (processTextContent pages qGen sGen) := by
    intro h
    obtain ⟨j, p', hget, hk, hlong⟩ :=
      mem_allKeys_processTextContentAux qGen sGen pages 0 (i + 1) h
    have hj : j = i := by omega
    subst hj
    rw [hget] at hp
    cases hp
    omega
  refine ⟨?_, ?_, ?_, ?_, ?_⟩
  · intro hmem; exact key (by simp [allKeys]; tauto)
  · intro hmem; exact key (by simp [allKeys]; tauto)
  · intro v hmem
    exact key (by
      simp only [allKeys, List.mem_append]
      exact Or.inl (Or.inl (Or.inr (List.mem_map_of_mem Prod.fst hmem))))
  · intro v hmem
    exact key (by
      simp only [allKeys, List.mem_append]
      exact Or.inl (Or.inr (List.mem_map_of_mem Prod.fst hmem)))
  · intro v hmem
    exact key (by
      simp only [allKeys, List.mem_append]
      exact Or.inr (List.mem_map_of_mem Prod.fst hmem))

/-- Witness for C9 at a concrete input: a two-page document whose second
page is below the length gate. -/
theorem c9_short_pages_skipped_witness :
    (2 : Nat) ∉ (processTextContent ["this is a long slide text", "tiny"]
      (fun _ => some "Q") (fun _ => some "S")).qCalls
    ∧ (∀ v, ((2 : Nat), v) ∉ (processTextContent ["this is a long slide text", "tiny"]
        (fun _ => some "Q") (fun _ => some "S")).slideData) := by
  have h := c9_short_pages_skipped ["this is a long slide text", "tiny"]
    (fun _ => some "Q") (fun _ => some "S") 1 "tiny" (by decide) (by decide)
  exact ⟨h.1, h.2.2.1⟩

theorem processTextContentAux_questions_sub (qGen sGen : Nat → Option String) :
    ∀ pages i0 k v, (k, v) ∈ (processTextContentAux qGen sGen pages i0).questionsData →
      (∃ w, (k, w) ∈ (processTextContentAux qGen sGen pages i0).slideData)
      ∧ v.length = 1 := by
  intro pages
  induction pages with
  | nil => intro i0 k v h; simp [processTextContentAux] at h
  | cons page rest ih =>
    intro i0 k v h
    by_cases hlong : 10 < (jsTrim page).length
    · cases hq : qGen (i0 + 1) with
      | none =>
        simp only [processTextContentAux, if_pos hlong, hq] at h ⊢
        obtain ⟨⟨w, hw⟩, hv⟩ := ih (i0 + 1) k v h
        exact ⟨⟨w, List.mem_cons_of_mem _ hw⟩, hv⟩
      | some q =>
        simp only [processTextContentAux, if_pos hlong, hq, List.mem_cons] at h ⊢
        rcases h with h | h
        · obtain ⟨hk, hv⟩ := Prod.mk.inj h
          exact ⟨⟨jsTrim page, Or.inl (by rw [hk])⟩, by rw [hv]; rfl⟩
        · obtain ⟨⟨w, hw⟩, hv⟩ := ih (i0 + 1) k v h
          exact ⟨⟨w, Or.inr hw⟩, hv⟩
    · simp only [processTextContentAux, if_neg hlong] at h ⊢
      exact ih (i0 + 1) k v h

theorem processTextContentAux_speech_sub (qGen sGen : Nat → Option String) :
    ∀ pages i0 k v, (k, v) ∈ (processTextContentAux qGen sGen pages i0).speechContent →
      ∃ w, (k, w) ∈ (processTextContentAux qGen sGen pages i0).slideData := by
  intro pages
  induction pages with
  | nil => intro i0 k v h; simp [processTextContentAux] at h
  | cons page rest ih =>
    intro i0 k v h
    by_cases hlong : 10 < (jsTrim page).length
    · cases hs : sGen (i0 + 1) with
      | none =>
        simp only [processTextContentAux, if_pos hlong, hs] at h ⊢
        obtain ⟨w, hw⟩ := ih (i0 + 1) k v h
        exact ⟨w, List.mem_cons_of_mem _ hw⟩
      | some s =>
        simp only [processTextContentAux, if_pos hlong, hs, List.mem_cons] at h ⊢
        rcases h with h | h
        · obtain ⟨hk, _⟩ := Prod.mk.inj h
          exact ⟨jsTrim page, Or.inl (by rw [hk])⟩
        · obtain ⟨w, hw⟩ := ih (i0 + 1) k v h
          exact ⟨w, Or.inr hw⟩
    · simp only [processTextContentAux, if_neg hlong] at h ⊢
      exact ih (i0 + 1) k v h

/-- C10.  Every key of the questions map and of the speech map is also a key
of the slide-texts map; every questions value is a one-element array; and
every slide-texts key is `j + 1` for a page `j` whose trimmed text exceeded
10 characters.  (Speech values being plain strings is enforced by the shape
of the embedding, mirroring the JavaScript assignment.) -/
theorem c10_map_invariants (pages : List String) (qGen sGen : Nat → Option String) :
    (∀ k v, (k, v) ∈ (processTextContent pages qGen sGen).questionsData →
      (∃ w, (k, w) ∈ (processTextContent pages qGen sGen).slideData) ∧ v.length = 1)
    ∧ (∀ k v, (k, v) ∈ (processTextContent pages qGen sGen).speechContent →
      ∃ w, (k, w) ∈ (processTextContent pages qGen sGen).slideData)
    ∧ (∀ k v, (k, v) ∈ (processTextContent pages qGen sGen).slideData →
      ∃ j p, pages.get? j = some p ∧ k = j + 1 ∧ 10 < (jsTrim p).length) := by
  refine ⟨?_, ?_, ?_⟩
  · intro k v h
    exact processTextContentAux_questions_sub qGen sGen pages 0 k v h
  · intro k v h
    exact processTextContentAux_speech_sub qGen sGen pages 0 k v h
  · intro k v h
    have hm : k ∈ allKeys (processTextContent pages qGen sGen) := by
      simp only [allKeys, List.mem_append]
      exact Or.inl (Or.inl (Or.inr (List.mem_map_of_mem Prod.fst h)))
    obtain ⟨j, p, hget, hk, hlong⟩ :=
      mem_allKeys_processTextContentAux qGen sGen pages 0 k hm
    exact ⟨j, p, hget, by omega, hlong⟩

/-- Witness for C10 at a concrete input. -/
theorem c10_map_invariants_witness :
    (∃ w, ((1 : Nat), w) ∈ (processTextContent ["this is a long slide text"]
      (fun _ => some "Q") (fun _ => some "S")).slideData) := by
  have h := (c10_map_invariants ["this is a long slide text"]
    (fun _ => some "Q") (fun _ => some "S")).1 1 ["Q"] (by decide)
  exact h.1

/-! ## C5: the per-pair fallback path -/

theorem fallbackLoopAux_length (so : Nat → Nat → SingleCallOutcome) :
    ∀ pairs i0, (fallbackLoopAux so pairs i0).1.length = pairs.length := by
  intro pairs
  induction pairs with
  | nil => intro i0; rfl
  | cons q rest ih => intro i0; simp [fallbackLoopAux, ih (i0 + 1)]

theorem fallbackLoopAux_get? (so : Nat → Nat → SingleCallOutcome) :
    ∀ pairs i0 j pair, pairs.get? j = some pair →
      (fallbackLoopAux so pairs i0).1.get? j = some
        (match (evaluateAnswerWithOpenAI (so (i0 + j))).result with
          | .ok e => mkReportItem pair e
          | .error _ => fallbackFailItem pair) := by
  intro pairs
  induction pairs with
  | nil => intro i0 j pair h; simp at h
  | cons q rest ih =>
    intro i0 j pair h
    cases j with
    | zero =>
      simp only [List.get?_cons_zero, Option.some.injEq] at h
      subst h
      simp [fallbackLoopAux]
    | succ j2 =>
      simp only [List.get?_cons_succ] at h
      have hrec := ih (i0 + 1) j2 pair h
      have harith : i0 + 1 + j2 = i0 + (j2 + 1) := by omega
      rw [harith] at hrec
      simpa [fallbackLoopAux] using hrec

/-- C5 counterexample.  When every batch attempt is rate-limited, the
retries are exhausted inside `evaluateAllAnswersWithOpenAI`, which then
*returns* the batch rate-limit defaults instead of throwing: the per-pair
fallback is not triggered (`usedFallback = false`, zero single-pair calls),
contradicting the claim that an exhausted rate-limit error triggers it. -/
theorem c5_counterexample :
    (generateReport [⟨"What is X", "Y"⟩] (fun _ => BatchCallOutcome.rateLimited none)
        (fun _ _ => SingleCallOutcome.apiError)).usedFallback = false
    ∧ (generateReport [⟨"What is X", "Y"⟩] (fun _ => BatchCallOutcome.rateLimited none)
        (fun _ _ => SingleCallOutcome.apiError)).singleAttempts = 0
    ∧ (generateReport [⟨"What is X", "Y"⟩] (fun _ => BatchCallOutcome.rateLimited none)
        (fun _ _ => SingleCallOutcome.apiError)).items =
      [⟨"What is X", "Y",
        "Rate limit exceeded. Please upgrade your OpenAI plan or try again later.", 0,
        "Unable to evaluate due to API rate limits."⟩] := by
  decide

/-- C5 as amended.  The report always has one entry per input pair in input
order; any error *thrown* by the primary batch path triggers the per-pair
fallback, whose entry for pair j comes from that pair's individual call, or
is the conservative default (similarity 0, explanatory text) when the
individual call also throws.  A rate-limit error whose retries are
exhausted, however, does not throw: the primary path itself returns
rate-limited defaults and no per-pair call is made. -/
theorem c5_fallback (pairs : List QAPair) (bo : Nat → BatchCallOutcome)
    (so : Nat → Nat → SingleCallOutcome) :
    (generateReport pairs bo so).items.length = pairs.length
    ∧ ((evaluateAllAnswersWithOpenAI pairs bo).result = Except.error () →
        (generateReport pairs bo so).usedFallback = true
        ∧ (∀ j pair, pairs.get? j = some pair →
            (evaluateAnswerWithOpenAI (so j)).result = Except.error () →
            (generateReport pairs bo so).items.get? j = some (fallbackFailItem pair))
        ∧ (∀ j pair e, pairs.get? j = some pair →
            (evaluateAnswerWithOpenAI (so j)).result = Except.ok e →
            (generateReport pairs bo so).items.get? j = some (mkReportItem pair e)))
    ∧ (∀ g0 g1 g2, bo 0 = BatchCallOutcome.rateLimited g0 →
        bo 1 = BatchCallOutcome.rateLimited g1 → bo 2 = BatchCallOutcome.rateLimited g2 →
        (generateReport pairs bo so).usedFallback = false
        ∧ (generateReport pairs bo so).singleAttempts = 0) := by
  refine ⟨?_, ?_, ?_⟩
  · cases hres : (evaluateAllAnswersWithOpenAI pairs bo).result with
    | ok l =>
      have hl : l.length = pairs.length := evaluateAllAnswersAux_ok_length bo pairs 2 0 l hres
      simp [generateReport, hres, hl]
    | error e =>
      simp [generateReport, hres, fallbackLoopAux_length]
  · intro herr
    refine ⟨by simp [generateReport, herr], ?_, ?_⟩
    · intro j pair hget hind
      have := fallbackLoopAux_get? so pairs 0 j pair hget
      rw [Nat.zero_add] at this
      rw [hind] at this
      simpa [generateReport, herr] using this
    · intro j pair e hget hind
      have := fallbackLoopAux_get? so pairs 0 j pair hget
      rw [Nat.zero_add] at this
      rw [hind] at this
      simpa [generateReport, herr] using this
  · intro g0 g1 g2 h0 h1 h2
    have hres : (evaluateAllAnswersWithOpenAI pairs bo).result =
        Except.ok (pairs.map (fun _ => rateLimitBatchDefault)) := by
      simp [evaluateAllAnswersWithOpenAI, evaluateAllAnswersAux, h0, h1, h2]
    simp [generateReport, hres]

/-- Witness for C5's amended theorem at a concrete input: the batch path
throws a non-rate-limit error, the single call for pair 0 also throws. -/
theorem c5_fallback_witness :
    (generateReport [⟨"What is X", "Y"⟩] (fun _ => BatchCallOutcome.apiError)
        (fun _ _ => SingleCallOutcome.apiError)).usedFallback = true
    ∧ (generateReport [⟨"What is X", "Y"⟩] (fun _ => BatchCallOutcome.apiError)
        (fun _ _ => SingleCallOutcome.apiError)).items.get? 0 =
      some (fallbackFailItem ⟨"What is X", "Y"⟩)
    ∧ (generateReport [⟨"What is X", "Y"⟩] (fun _ => BatchCallOutcome.apiError)
        (fun _ _ => SingleCallOutcome.apiError)).items.length = 1 := by
  have h := c5_fallback [⟨"What is X", "Y"⟩] (fun _ => BatchCallOutcome.apiError)
    (fun _ _ => SingleCallOutcome.apiError)
  have herr : (evaluateAllAnswersWithOpenAI [⟨"What is X", "Y"⟩]
      (fun _ => BatchCallOutcome.apiError)).result = Except.error () := by decide
  have h2 := h.2.1 herr
  exact ⟨h2.1, h2.2.1 0 ⟨"What is X", "Y"⟩ (by decide) (by decide), h.1⟩

/-! ## C6: the rate-limit retry policy -/

/-- C6.  On a rate-limit error the evaluator waits `hint * 1000 + 5000`
milliseconds when a retry-after hint is present and 30000 otherwise; it
makes at most 3 provider attempts (2 retries); and when every attempt is
rate-limited both the single-pair and the batch evaluator return the
deterministic rate-limited default (similarity 0, rate-limit text) instead
of propagating the error, so evaluation terminates. -/
theorem c6_rate_limit_policy (so : Nat → SingleCallOutcome) (bo : Nat → BatchCallOutcome)
    (pairs : List QAPair) (h0 h1 h2 g0 g1 g2 : Option Nat)
    (hs0 : so 0 = SingleCallOutcome.rateLimited h0)
    (hs1 : so 1 = SingleCallOutcome.rateLimited h1)
    (hs2 : so 2 = SingleCallOutcome.rateLimited h2)
    (hb0 : bo 0 = BatchCallOutcome.rateLimited g0)
    (hb1 : bo 1 = BatchCallOutcome.rateLimited g1)
    (hb2 : bo 2 = BatchCallOutcome.rateLimited g2) :
    evaluateAnswerWithOpenAI so =
      ⟨Except.ok rateLimitSingleDefault, [waitOf h0, waitOf h1], 3⟩
    ∧ evaluateAllAnswersWithOpenAI pairs bo =
      ⟨Except.ok (pairs.map (fun _ => rateLimitBatchDefault)), [waitOf g0, waitOf g1], 3⟩
    ∧ (∀ so2, (evaluateAnswerWithOpenAI so2).attempts ≤ 3)
    ∧ (∀ s, waitOf (some s) = s * 1000 + 5000) ∧ waitOf none = 30000
    ∧ rateLimitSingleDefault.similarity = 0 ∧ rateLimitBatchDefault.similarity = 0 := by
  refine ⟨?_, ?_, ?_, fun _ => rfl, rfl, rfl, rfl⟩
  · simp [evaluateAnswerWithOpenAI, evaluateAnswerAux, hs0, hs1, hs2]
  · simp [evaluateAllAnswersWithOpenAI, evaluateAllAnswersAux, hb0, hb1, hb2]
  · intro so2
    exact evaluateAnswerAux_attempts_le so2 2 0

/-- Witness for C6 at a concrete input: every attempt rate-limited, with a
10-second retry-after hint on the single path and no hint on the batch
path. -/
theorem c6_rate_limit_policy_witness :
    evaluateAnswerWithOpenAI (fun _ => SingleCallOutcome.rateLimited (some 10)) =
      ⟨Except.ok rateLimitSingleDefault, [15000, 15000], 3⟩
    ∧ evaluateAllAnswersWithOpenAI [⟨"q", "a"⟩] (fun _ => BatchCallOutcome.rateLimited none) =
      ⟨Except.ok [rateLimitBatchDefault], [30000, 30000], 3⟩ := by
  have h := c6_rate_limit_policy (fun _ => SingleCallOutcome.rateLimited (some 10))
    (fun _ => BatchCallOutcome.rateLimited none) [⟨"q", "a"⟩]
    (some 10) (some 10) (some 10) none none none rfl rfl rfl rfl rfl rfl
  exact ⟨by simpa [waitOf] using h.1, by simpa [waitOf] using h.2.1⟩

end Awaaz
